import Mathlib

/-!
# Verification of the Blackmagic Videohub panel server

A shallow embedding, in Lean, of the networking core of
`companion-surface-blackmagic-videohub-panel`:

* `src/server/videohub.ts` — the `VideohubServer` class: frame decoding,
  the configure handshake, command dispatch, the client registry, and the
  public `setBacklight` / `configureDevice` / `start` / `destroy` API;
* `src/server/configure.ts` — the pure `generateConfigure` block generator.

JavaScript-specific semantics (`String.prototype.slice`, `indexOf`,
`split`, `trim`, `Number(...)`, `||` on strings, `Math.floor`) are modelled
by explicit helper functions; `NaN` is modelled as `none` of `Option Int`
and an absent (`undefined`) object field as `none` of an `Option` field.
JS numbers flowing into `Math.floor` are modelled as rationals, which is
faithful for every finite value the claims exercise.
-/

/-! ## JavaScript string and number semantics -/

/-- Scan helper for `strIndexOf`: index of the first position of a list at
which `pat` is a prefix. -/
def strIndexOfAux (pat : List Char) : List Char → Option Nat
  | [] => none
  | c :: rest =>
      if pat.isPrefixOf (c :: rest) then some 0
      else (strIndexOfAux pat rest).map (· + 1)

/-- Model of JS `String.prototype.indexOf` for a non-empty needle:
`none` stands for the JS result `-1`. -/
def strIndexOf (s pat : String) : Option Nat :=
  strIndexOfAux pat.data s.data

/-- Model of JS `String.prototype.slice(start, end)`: a negative index
counts from the end of the string, then both indices are clamped to
`[0, length]` and the half-open slice is taken. -/
def jsSlice (s : String) (start stop : Int) : String :=
  let len : Int := s.length
  let norm : Int → Nat := fun i => (if i < 0 then max (len + i) 0 else min i len).toNat
  ⟨(s.data.take (norm stop)).drop (norm start)⟩

/-- Model of JS `String.prototype.slice(start)`: slice to the end. -/
def jsSliceFrom (s : String) (start : Int) : String :=
  jsSlice s start s.length

/-- Split a character list at every occurrence of `sep`; never returns an
empty list (an empty input yields `[[]]`, as JS `''.split(sep)` yields
`['']`). -/
def splitOnCharAux (sep : Char) : List Char → List (List Char)
  | [] => [[]]
  | c :: rest =>
      let r := splitOnCharAux sep rest
      if c = sep then [] :: r
      else
        match r with
        | [] => [[c]]
        | h :: t => (c :: h) :: t

/-- Model of JS `String.prototype.split(sep)` for a single-character
separator (the source only splits on `'\n'` and `' '`). -/
def jsSplit (s : String) (sep : Char) : List String :=
  (splitOnCharAux sep s.data).map (fun l => ⟨l⟩)

/-- Model of JS `String.prototype.trim`: strip leading and trailing
whitespace. -/
def jsTrim (s : String) : String :=
  ⟨((s.data.dropWhile Char.isWhitespace).reverse.dropWhile Char.isWhitespace).reverse⟩

/-- Digits-to-value accumulator for `jsToNumber`. -/
def digitsToNat (l : List Char) : Nat :=
  l.foldl (fun acc c => acc * 10 + (c.toNat - '0'.toNat)) 0

/-- Restricted model of JS `Number(string)`, used for the device-info
numeric fields, whose claims only distinguish `NaN` from non-`NaN`:
optionally-signed decimal integer literals; `none` models `NaN`. As in
JS, a string that is empty after trimming converts to `0`, and every
string JS `Number()` rejects is also `none` here. (The routing
dispatcher, whose claim concerns the exact accept-set and the emitted
values, uses the full model `jsNumberOfString` below.) -/
def jsToNumber (s : String) : Option Int :=
  match (jsTrim s).data with
  | [] => some 0
  | '-' :: rest =>
      if rest ≠ [] ∧ rest.all Char.isDigit then some (-(digitsToNat rest : Int)) else none
  | '+' :: rest =>
      if rest ≠ [] ∧ rest.all Char.isDigit then some ((digitsToNat rest : Int)) else none
  | l => if l.all Char.isDigit then some ((digitsToNat l : Int)) else none

/-! ### Full JS `Number(string)` semantics

The routing dispatcher (videohub.ts lines 285–287) emits whatever
`Number` produces, so for it the conversion is modelled in full: the
ECMAScript StringNumericLiteral grammar — optional exotic whitespace,
signed decimal literals with fraction and exponent, `Infinity`, and
unsigned binary/octal/hex literals. Values are exact rationals;
IEEE-754 rounding is not modelled (every literal the claims exercise is
an exactly representable double), and the `NaN`/non-`NaN` distinction,
which alone decides whether a press event is emitted, is exact. -/

/-- A JS number that is not `NaN`: a finite value or a signed infinity
(`Number('Infinity')`). -/
inductive JsNum where
  | num (q : ℚ)
  | posInf
  | negInf
  deriving DecidableEq

/-- Negation of a JS number, for a leading `-` sign. -/
def JsNum.neg : JsNum → JsNum
  | .num q => .num (-q)
  | .posInf => .negInf
  | .negInf => .posInf

/-- The StrWhiteSpaceChar set `Number` strips: TAB LF VT FF CR SP NBSP,
the Unicode Zs spaces, the line/paragraph separators and ZWNBSP. -/
def jsStrWhitespace (c : Char) : Bool :=
  decide (c.toNat ∈ ([0x9, 0xA, 0xB, 0xC, 0xD, 0x20, 0xA0, 0x1680,
    0x2028, 0x2029, 0x202F, 0x205F, 0x3000, 0xFEFF] : List Nat) ∨
    (0x2000 ≤ c.toNat ∧ c.toNat ≤ 0x200A))

/-- Value of a hexadecimal digit character, if it is one. -/
def hexDigitVal (c : Char) : Option Nat :=
  if c.isDigit then some (c.toNat - '0'.toNat)
  else if 'a' ≤ c ∧ c ≤ 'f' then some (c.toNat - 'a'.toNat + 10)
  else if 'A' ≤ c ∧ c ≤ 'F' then some (c.toNat - 'A'.toNat + 10)
  else none

/-- Value of a non-empty all-digit string in the given base (2, 8 or
16); `none` when empty or any character is not a digit of the base. -/
def digitsVal (base : Nat) (l : List Char) : Option Nat :=
  if l = [] then none
  else
    l.foldl (fun acc c =>
      match acc, hexDigitVal c with
      | some a, some v => if v < base then some (a * base + v) else none
      | _, _ => none) (some 0)

/-- An ExponentPart — `e`/`E`, optional sign, at least one digit —
consuming the whole remainder, else `none`. -/
def parseExponentPart : List Char → Option Int
  | c :: rest =>
      if c = 'e' ∨ c = 'E' then
        match rest with
        | '+' :: ds => if ds ≠ [] ∧ ds.all Char.isDigit then some ((digitsToNat ds : Int)) else none
        | '-' :: ds => if ds ≠ [] ∧ ds.all Char.isDigit then some (-(digitsToNat ds : Int)) else none
        | ds => if ds ≠ [] ∧ ds.all Char.isDigit then some ((digitsToNat ds : Int)) else none
      else none
  | [] => none

/-- Mathematical value of a decimal literal with integer digits `ip`,
fraction digits `fp` and exponent `e`: `(ip.fp) * 10 ^ e` as an exact
rational. -/
def decValue (ip fp : List Char) (e : Int) : ℚ :=
  match e - (fp.length : Int) with
  | Int.ofNat n => ((digitsToNat (ip ++ fp) * 10 ^ n : Nat) : ℚ)
  | Int.negSucc n => ((digitsToNat (ip ++ fp) : Nat) : ℚ) / (((10 : Nat) ^ (n + 1) : Nat) : ℚ)

/-- StrUnsignedDecimalLiteral: `Infinity`, `digits[.digits][exp]` or
`.digits[exp]`. -/
def parseUnsignedDecimal (l : List Char) : Option JsNum :=
  if l = ['I', 'n', 'f', 'i', 'n', 'i', 't', 'y'] then some .posInf
  else
    let (ip, rest1) := l.span Char.isDigit
    match rest1 with
    | '.' :: rest2 =>
        let (fp, rest3) := rest2.span Char.isDigit
        if ip = [] ∧ fp = [] then none
        else
          match rest3 with
          | [] => some (.num (decValue ip fp 0))
          | _ =>
              match parseExponentPart rest3 with
              | some e => some (.num (decValue ip fp e))
              | none => none
    | [] => if ip = [] then none else some (.num (decValue ip [] 0))
    | _ =>
        if ip = [] then none
        else
          match parseExponentPart rest1 with
          | some e => some (.num (decValue ip [] e))
          | none => none

/-- StrDecimalLiteral: an optional sign before the unsigned literal. -/
def parseSignedDecimal (l : List Char) : Option JsNum :=
  match l with
  | '+' :: rest => parseUnsignedDecimal rest
  | '-' :: rest => (parseUnsignedDecimal rest).map JsNum.neg
  | _ => parseUnsignedDecimal l

/-- Model of JS `Number(string)` in full: trim the JS whitespace set; an
empty remainder is `0`; `0x`/`0o`/`0b` introduce unsigned non-decimal
integer literals; anything else must be a signed decimal literal or
`±Infinity`. `none` is `NaN`. -/
def jsNumberOfString (s : String) : Option JsNum :=
  let t := ((s.data.dropWhile jsStrWhitespace).reverse.dropWhile jsStrWhitespace).reverse
  match t with
  | [] => some (.num 0)
  | '0' :: x :: rest =>
      if x = 'x' ∨ x = 'X' then (digitsVal 16 rest).map (fun n => .num ((n : Nat) : ℚ))
      else if x = 'o' ∨ x = 'O' then (digitsVal 8 rest).map (fun n => .num ((n : Nat) : ℚ))
      else if x = 'b' ∨ x = 'B' then (digitsVal 2 rest).map (fun n => .num ((n : Nat) : ℚ))
      else parseSignedDecimal t
  | _ => parseSignedDecimal t

/-- Model of JS `Number(x)` where `x` may be `undefined` (an
out-of-range array access): `Number(undefined)` is `NaN`. -/
def jsNumberOfStringOpt : Option String → Option JsNum
  | none => none
  | some s => jsNumberOfString s

/-- JS truthiness of a possibly-`undefined` string: `undefined` and the
empty string are falsy. -/
def jsTruthyStr : Option String → Bool
  | none => false
  | some s => s ≠ ""

/-- Model of the JS expression `a || b` where `a` is a possibly-`undefined`
string. -/
def jsOrString (v : Option String) (dflt : String) : String :=
  match v with
  | none => dflt
  | some s => if s = "" then dflt else s

/-! ## Frame Decoder

`videohub.ts` lines 123–136: the primary connection's `data` handler.
The same buffer-append / `indexOf('\n\n')` / slice-split-slice logic is
repeated verbatim at lines 204–212 inside the configure handshake. -/

/-- One delivery step of the `data` handler (`#clientConnect`,
videohub.ts lines 124–136): append the chunk to the carried buffer and,
**if** (not *while*) a `"\n\n"` terminator is now present, cut off one
block, split it into lines, and dispatch it; the remainder (which may
itself already contain further complete blocks) stays in the buffer.
Returns the new buffer and the blocks dispatched by this delivery. -/
def onData (dataBuffer chunk : String) : String × List (List String) :=
  let buf := dataBuffer ++ chunk
  match strIndexOf buf "\n\n" with
  | none => (buf, [])
  | some splitIndex =>
      let toProcess := jsSplit (jsSlice buf 0 (splitIndex : Int)) '\n'
      let rest := jsSliceFrom buf ((splitIndex : Int) + 2)
      if toProcess.length > 0 then (rest, [toProcess]) else (rest, [])

/-- Feed a sequence of deliveries through the `data` handler, collecting
every dispatched block in order. -/
def decodeChunks (chunks : List String) : List (List String) :=
  (chunks.foldl
    (fun acc chunk =>
      let step := onData acc.1 chunk
      (step.1, acc.2 ++ step.2))
    ("", [])).2

/-- C1: the Frame Decoder is *not* chunking-independent, because the data
handler tests `indexOf('\n\n')` with an `if` rather than a loop: a single
delivery that completes two blocks dispatches only the first, leaving the
second buffered (and never dispatched unless further data arrives).
Delivering `"A\n\nB\n\n"` in one piece dispatches only block `["A"]`,
while delivering the same bytes as two chunks dispatches `["A"]` then
`["B"]`. -/
theorem frameDecoder_not_chunking_independent :
    decodeChunks ["A\n\nB\n\n"] = [["A"]] ∧
    decodeChunks ["A\n\n", "B\n\n"] = [["A"], ["B"]] ∧
    decodeChunks ["A\n\nB\n\n"] ≠ decodeChunks ["A\n\n", "B\n\n"] := by
  refine ⟨by decide, by decide, by decide⟩

/-! ## Configure-Block Generator (`src/server/configure.ts`)

`generateConfigure(buttonColumns, buttonRows, destinationCount)` builds
four text sections by nested `for (y) for (x)` loops appending one line
per button to an accumulating string. The loops are embedded as left
folds over `List.range`; the call sites in `videohub.ts` pass the default
`destinationCount = 0` explicitly. -/

/-- configure.ts line 10: `destinationFromCol = buttonColumns - destinationCols`
with `destinationCols = Math.floor(destinationCount / 2)` (line 9). The
subtraction is a JS number subtraction, hence over `Int`. -/
def destinationFromCol (buttonColumns destinationCount : Nat) : Int :=
  (buttonColumns : Int) - ((destinationCount / 2 : Nat) : Int)

/-- configure.ts line 16: `isDestination = x >= destinationFromCol`,
the predicate deciding which buttons the BUTTON KIND section marks
`Destination` (and which get the destination routing in BUTTON SDI_A). -/
def isDestination (buttonColumns destinationCount x : Nat) : Bool :=
  destinationFromCol buttonColumns destinationCount ≤ (x : Int)

/-- configure.ts lines 12–20: the BUTTON KIND section. -/
def buttonKindSection (buttonColumns buttonRows destinationCount : Nat) : String :=
  ((List.range buttonRows).foldl (fun acc y =>
    (List.range buttonColumns).foldl (fun acc x =>
      let i := x + y * buttonColumns
      let kind := if isDestination buttonColumns destinationCount x then "Destination" else "Source"
      acc ++ (toString i ++ " " ++ kind ++ "\n")) acc)
    "BUTTON KIND:\n") ++ "\n"

/-- configure.ts lines 22–36: the BUTTON SDI_A section, with its leading
`-1 0` sentinel; destination buttons map to `destinationCol * buttonRows + y`,
source buttons to themselves. -/
def sdiASection (buttonColumns buttonRows destinationCount : Nat) : String :=
  ((List.range buttonRows).foldl (fun acc y =>
    (List.range buttonColumns).foldl (fun acc x =>
      let i := x + y * buttonColumns
      if isDestination buttonColumns destinationCount x then
        let destinationCol : Int := (x : Int) - destinationFromCol buttonColumns destinationCount
        let v : Int := destinationCol * (buttonRows : Int) + (y : Int)
        acc ++ (toString i ++ " " ++ toString v ++ "\n")
      else
        acc ++ (toString i ++ " " ++ toString i ++ "\n")) acc)
    ("BUTTON SDI_A:\n" ++ "-1 0\n")) ++ "\n"

/-- configure.ts lines 38–45: the BUTTON SDI_B section — sentinel `-1 -1`,
then every button maps to `-1`. -/
def sdiBSection (buttonColumns buttonRows : Nat) : String :=
  ((List.range buttonRows).foldl (fun acc y =>
    (List.range buttonColumns).foldl (fun acc x =>
      let i := x + y * buttonColumns
      acc ++ (toString i ++ " " ++ "-1" ++ "\n")) acc)
    ("BUTTON SDI_B:\n" ++ "-1 -1\n")) ++ "\n"

/-- configure.ts lines 47–54: the BUTTON REMOTE section — sentinel `-1 -1`,
then every button maps to `-1`. -/
def remoteSection (buttonColumns buttonRows : Nat) : String :=
  ((List.range buttonRows).foldl (fun acc y =>
    (List.range buttonColumns).foldl (fun acc x =>
      let i := x + y * buttonColumns
      acc ++ (toString i ++ " " ++ "-1" ++ "\n")) acc)
    ("BUTTON REMOTE:\n" ++ "-1 -1\n")) ++ "\n"

/-- configure.ts lines 8–57: `generateConfigure` is the concatenation of
the four sections, in order. -/
def generateConfigure (buttonColumns buttonRows destinationCount : Nat) : String :=
  buttonKindSection buttonColumns buttonRows destinationCount ++
  sdiASection buttonColumns buttonRows destinationCount ++
  sdiBSection buttonColumns buttonRows ++
  remoteSection buttonColumns buttonRows

/-- Invariant preservation along a left fold. -/
theorem foldl_invariant {α β : Type} (P : β → Prop) (step : β → α → β)
    (hstep : ∀ s a, P s → P (step s a)) :
    ∀ (l : List α) (init : β), P init → P (l.foldl step init)
  | [], _, h => h
  | a :: t, init, h => foldl_invariant P step hstep t (step init a) (hstep init a h)

/-- Appending one `…\n`-terminated line preserves the
`header ++ body ++ "\n"` shape of a section under construction. -/
theorem append_line_pres (H s u v : String) (h : s = H ++ v ++ "\n") :
    s ++ (u ++ "\n") = H ++ (v ++ ("\n" ++ u)) ++ "\n" := by
  subst h
  simp only [String.append_assoc]

theorem nl_nl : ("\n" ++ "\n" : String) = "\n\n" := by decide

/-- The final `prelude += '\n'` of each loop turns a
`header ++ body ++ "\n"` string into a blank-line-terminated section. -/
theorem close_section (H v s : String) (h : s = H ++ v ++ "\n") :
    s ++ "\n" = H ++ v ++ "\n\n" := by
  subst h
  rw [String.append_assoc (H ++ v) "\n" "\n", nl_nl]

theorem buttonKindSection_structure (c r d : Nat) :
    ∃ v, buttonKindSection c r d = "BUTTON KIND:" ++ v ++ "\n\n" := by
  have key : ∃ v,
      (List.range r).foldl (fun acc y =>
        (List.range c).foldl (fun acc x =>
          let i := x + y * c
          let kind := if isDestination c d x then "Destination" else "Source"
          acc ++ (toString i ++ " " ++ kind ++ "\n")) acc)
        "BUTTON KIND:\n" = "BUTTON KIND:" ++ v ++ "\n" := by
    apply foldl_invariant (P := fun s => ∃ v, s = "BUTTON KIND:" ++ v ++ "\n")
    · intro s y hs
      apply foldl_invariant (P := fun s => ∃ v, s = "BUTTON KIND:" ++ v ++ "\n")
      · intro s x hx
        obtain ⟨v, hv⟩ := hx
        exact ⟨_, append_line_pres _ s _ v hv⟩
      · exact hs
    · exact ⟨"", by decide⟩
  obtain ⟨v, hv⟩ := key
  exact ⟨v, close_section _ _ _ hv⟩

theorem sdiASection_structure (c r d : Nat) :
    ∃ v, sdiASection c r d = "BUTTON SDI_A:" ++ v ++ "\n\n" := by
  have key : ∃ v,
      (List.range r).foldl (fun acc y =>
        (List.range c).foldl (fun acc x =>
          let i := x + y * c
          if isDestination c d x then
            let destinationCol : Int := (x : Int) - destinationFromCol c d
            let w : Int := destinationCol * (r : Int) + (y : Int)
            acc ++ (toString i ++ " " ++ toString w ++ "\n")
          else
            acc ++ (toString i ++ " " ++ toString i ++ "\n")) acc)
        ("BUTTON SDI_A:\n" ++ "-1 0\n") = "BUTTON SDI_A:" ++ v ++ "\n" := by
    apply foldl_invariant (P := fun s => ∃ v, s = "BUTTON SDI_A:" ++ v ++ "\n")
    · intro s y hs
      apply foldl_invariant (P := fun s => ∃ v, s = "BUTTON SDI_A:" ++ v ++ "\n")
      · intro s x hx
        obtain ⟨v, hv⟩ := hx
        by_cases hdest : isDestination c d x
        · simp only [hdest, if_true]
          exact ⟨_, append_line_pres _ s _ v hv⟩
        · simp only [hdest, if_false]
          exact ⟨_, append_line_pres _ s _ v hv⟩
      · exact hs
    · exact ⟨"\n-1 0", by decide⟩
  obtain ⟨v, hv⟩ := key
  exact ⟨v, close_section _ _ _ hv⟩

theorem sdiBSection_structure (c r : Nat) :
    ∃ v, sdiBSection c r = "BUTTON SDI_B:" ++ v ++ "\n\n" := by
  have key : ∃ v,
      (List.range r).foldl (fun acc y =>
        (List.range c).foldl (fun acc x =>
          let i := x + y * c
          acc ++ (toString i ++ " " ++ "-1" ++ "\n")) acc)
        ("BUTTON SDI_B:\n" ++ "-1 -1\n") = "BUTTON SDI_B:" ++ v ++ "\n" := by
    apply foldl_invariant (P := fun s => ∃ v, s = "BUTTON SDI_B:" ++ v ++ "\n")
    · intro s y hs
      apply foldl_invariant (P := fun s => ∃ v, s = "BUTTON SDI_B:" ++ v ++ "\n")
      · intro s x hx
        obtain ⟨v, hv⟩ := hx
        exact ⟨_, append_line_pres _ s _ v hv⟩
      · exact hs
    · exact ⟨"\n-1 -1", by decide⟩
  obtain ⟨v, hv⟩ := key
  exact ⟨v, close_section _ _ _ hv⟩

theorem remoteSection_structure (c r : Nat) :
    ∃ v, remoteSection c r = "BUTTON REMOTE:" ++ v ++ "\n\n" := by
  have key : ∃ v,
      (List.range r).foldl (fun acc y =>
        (List.range c).foldl (fun acc x =>
          let i := x + y * c
          acc ++ (toString i ++ " " ++ "-1" ++ "\n")) acc)
        ("BUTTON REMOTE:\n" ++ "-1 -1\n") = "BUTTON REMOTE:" ++ v ++ "\n" := by
    apply foldl_invariant (P := fun s => ∃ v, s = "BUTTON REMOTE:" ++ v ++ "\n")
    · intro s y hs
      apply foldl_invariant (P := fun s => ∃ v, s = "BUTTON REMOTE:" ++ v ++ "\n")
      · intro s x hx
        obtain ⟨v, hv⟩ := hx
        exact ⟨_, append_line_pres _ s _ v hv⟩
      · exact hs
    · exact ⟨"\n-1 -1", by decide⟩
  obtain ⟨v, hv⟩ := key
  exact ⟨v, close_section _ _ _ hv⟩

/-- Among the column indices `0 … c-1`, exactly the last `d / 2` satisfy
`isDestination` (assuming `d / 2 ≤ c`). -/
theorem filter_isDestination_length (c d : Nat) (hd : d / 2 ≤ c) :
    ((List.range c).filter (fun i => isDestination c d i)).length = d / 2 := by
  obtain ⟨m, hm⟩ : ∃ m, c = m + d / 2 := ⟨c - d / 2, by omega⟩
  rw [hm, List.range_add, List.filter_append, List.length_append]
  have h1 : (List.range m).filter (fun i => isDestination (m + d / 2) d i) = [] := by
    rw [List.filter_eq_nil_iff]
    intro x hx
    simp only [List.mem_range] at hx
    simp only [isDestination, destinationFromCol, decide_eq_true_eq, not_le]
    omega
  have h2 : ((List.range (d / 2)).map (m + ·)).filter
      (fun i => isDestination (m + d / 2) d i) = (List.range (d / 2)).map (m + ·) := by
    rw [List.filter_eq_self]
    intro x hx
    simp only [List.mem_map, List.mem_range] at hx
    obtain ⟨j, _, rfl⟩ := hx
    simp only [isDestination, destinationFromCol, decide_eq_true_eq]
    omega
  rw [h1, h2, List.length_map, List.length_range, List.length_nil, Nat.zero_add]

/-- C8: in the BUTTON KIND section, the entry for the button in column `x`
reads `Destination` exactly when `isDestination` holds (see
`buttonKindSection`, which prints `Destination`/`Source` from it). For
*every* column count `c` and every `x < c`: with `destinationCount = 0`
the button is a `Source` button; and whenever `d` is a valid even
`destinationCount > 0`, exactly the rightmost `d / 2` columns — those
with `x ≥ c - d / 2` — are `Destination` buttons and all others `Source`
buttons. (The kind of a button depends only on its column, so the row
count `r` plays no part.) -/
theorem buttonKind_columns_split (c d x : Nat) (hx : x < c) :
    isDestination c 0 x = false ∧
    (d % 2 = 0 → 0 < d → d ≤ c →
      ((isDestination c d x = true ↔ c - d / 2 ≤ x) ∧
       ((List.range c).filter (fun i => isDestination c d i)).length = d / 2)) := by
  refine ⟨?_, fun hd2 hd0 hdc => ⟨?_, filter_isDestination_length c d (by omega)⟩⟩
  · simp only [isDestination, destinationFromCol, decide_eq_false_iff_not, not_le]
    omega
  · simp only [isDestination, destinationFromCol, decide_eq_true_eq]
    omega

/-- Witness for C8 at `c = 4`, `d = 2`, `x = 3`: the last of four columns
is the single destination column. -/
theorem buttonKind_columns_split_w :
    isDestination 4 0 3 = false ∧
    (2 % 2 = 0 → 0 < 2 → 2 ≤ 4 →
      ((isDestination 4 2 3 = true ↔ 4 - 2 / 2 ≤ 3) ∧
       ((List.range 4).filter (fun i => isDestination 4 2 i)).length = 2 / 2)) :=
  buttonKind_columns_split 4 2 3 (by decide)

/-- C10: `generateConfigure` is total on all inputs, including those with
`destinationCols = Math.floor(destinationCount / 2)` exceeding
`buttonColumns`: it raises nothing, marks every button as a `Destination`
button (`destinationFromCol` is negative, so every `x ≥ 0` passes the
test), and still returns the four sections BUTTON KIND, BUTTON SDI_A,
BUTTON SDI_B, BUTTON REMOTE in order, each terminated by a blank line
(its text ends with `"\n\n"`). -/
theorem generateConfigure_total_on_overflow (c r d : Nat) (h : c < d / 2) :
    (∀ x, x < c → isDestination c d x = true) ∧
    (∃ v1 v2 v3 v4,
      generateConfigure c r d =
        ("BUTTON KIND:" ++ v1 ++ "\n\n") ++ ("BUTTON SDI_A:" ++ v2 ++ "\n\n") ++
        ("BUTTON SDI_B:" ++ v3 ++ "\n\n") ++ ("BUTTON REMOTE:" ++ v4 ++ "\n\n")) := by
  constructor
  · intro x _
    simp only [isDestination, destinationFromCol, decide_eq_true_eq]
    omega
  · obtain ⟨v1, h1⟩ := buttonKindSection_structure c r d
    obtain ⟨v2, h2⟩ := sdiASection_structure c r d
    obtain ⟨v3, h3⟩ := sdiBSection_structure c r
    obtain ⟨v4, h4⟩ := remoteSection_structure c r
    exact ⟨v1, v2, v3, v4, by simp only [generateConfigure, h1, h2, h3, h4]⟩

/-- Witness for C10 at `c = 1`, `r = 1`, `d = 4`: two destination columns
requested of a one-column panel. -/
theorem generateConfigure_total_on_overflow_w :
    (∀ x, x < 1 → isDestination 1 4 x = true) ∧
    (∃ v1 v2 v3 v4,
      generateConfigure 1 1 4 =
        ("BUTTON KIND:" ++ v1 ++ "\n\n") ++ ("BUTTON SDI_A:" ++ v2 ++ "\n\n") ++
        ("BUTTON SDI_B:" ++ v3 ++ "\n\n") ++ ("BUTTON REMOTE:" ++ v4 ++ "\n\n")) :=
  generateConfigure_total_on_overflow 1 1 4 (by decide)

/-! ## Device Info Parser (`videohub.ts` lines 230–257)

The `processedInfo` object is a JS record whose fields appear only when
the corresponding `Key:` line is seen. An `Option` field is `none` while
absent; the three numeric fields hold a JS number, i.e. a `JsNumber`
whose `none` is `NaN` — `Number(value)` is stored unconditionally, so a
non-numeric value yields a *present* `NaN` field. -/

/-- A JS number that may be `NaN` (`none`). -/
abbrev JsNumber := Option Int

/-- The `processedInfo` record (videohub.ts line 230). -/
structure ProcessedInfo where
  model : Option String := none
  name : Option String := none
  id : Option String := none
  buttonsTotal : Option JsNumber := none
  buttonsColumns : Option JsNumber := none
  buttonsRows : Option JsNumber := none
  deriving DecidableEq

/-- videohub.ts line 233: `splitIndex = element.indexOf(':')` (`-1` when
the line has no colon). -/
def deviceInfoSplitIndex (element : String) : Int :=
  match strIndexOf element ":" with
  | some i => (i : Int)
  | none => -1

/-- videohub.ts line 234: `key = element.slice(0, splitIndex)`. -/
def deviceInfoKey (element : String) : String :=
  jsSlice element 0 (deviceInfoSplitIndex element)

/-- videohub.ts line 235: `value = element.slice(splitIndex + 1).trim()`. -/
def deviceInfoValue (element : String) : String :=
  jsTrim (jsSliceFrom element (deviceInfoSplitIndex element + 1))

/-- One iteration of the parsing loop (videohub.ts lines 232–256): the
`switch` over the six recognized keys; any other key falls through and
changes nothing. -/
def parseDeviceInfoLine (processedInfo : ProcessedInfo) (element : String) : ProcessedInfo :=
  match deviceInfoKey element with
  | "Model" => { processedInfo with model := some (deviceInfoValue element) }
  | "Label" => { processedInfo with name := some (deviceInfoValue element) }
  | "Unique ID" => { processedInfo with id := some (deviceInfoValue element) }
  | "Input count" => { processedInfo with buttonsTotal := some (jsToNumber (deviceInfoValue element)) }
  | "Inputs across" => { processedInfo with buttonsColumns := some (jsToNumber (deviceInfoValue element)) }
  | "Inputs down" => { processedInfo with buttonsRows := some (jsToNumber (deviceInfoValue element)) }
  | _ => processedInfo

/-- The whole parse of a SMART DEVICE block: the loop starts at index 1,
skipping the `SMART DEVICE:` header line (videohub.ts line 231). -/
def parseDeviceInfo (deviceInfo : List String) : ProcessedInfo :=
  (deviceInfo.drop 1).foldl parseDeviceInfoLine {}

/-- The six keys the `switch` recognizes. -/
def recognizedDeviceInfoKeys : List String :=
  ["Model", "Label", "Unique ID", "Input count", "Inputs across", "Inputs down"]

/-- C3 (amended): the Device Info Parser maps only the six recognized
keys to descriptor fields and ignores every unrecognized key without
error; but a numeric field whose value fails to parse as a number is not
left absent — it is stored as a *present* `NaN` (`some none`), because
line 248 assigns `Number(value)` unconditionally. No error is ever
raised (the parser is total). -/
theorem deviceInfoParser_resilient (info : ProcessedInfo) (element : String) :
    (deviceInfoKey element ∉ recognizedDeviceInfoKeys →
      parseDeviceInfoLine info element = info) ∧
    (deviceInfoKey element = "Model" →
      (parseDeviceInfoLine info element).model = some (deviceInfoValue element)) ∧
    (deviceInfoKey element = "Label" →
      (parseDeviceInfoLine info element).name = some (deviceInfoValue element)) ∧
    (deviceInfoKey element = "Unique ID" →
      (parseDeviceInfoLine info element).id = some (deviceInfoValue element)) ∧
    (deviceInfoKey element = "Input count" →
      (parseDeviceInfoLine info element).buttonsTotal = some (jsToNumber (deviceInfoValue element))) ∧
    (deviceInfoKey element = "Inputs across" →
      (parseDeviceInfoLine info element).buttonsColumns = some (jsToNumber (deviceInfoValue element))) ∧
    (deviceInfoKey element = "Inputs down" →
      (parseDeviceInfoLine info element).buttonsRows = some (jsToNumber (deviceInfoValue element))) ∧
    (deviceInfoKey element = "Input count" → jsToNumber (deviceInfoValue element) = none →
      (parseDeviceInfoLine info element).buttonsTotal = some none ∧
      (parseDeviceInfoLine info element).buttonsTotal ≠ none) := by
  refine ⟨?_, ?_, ?_, ?_, ?_, ?_, ?_, ?_⟩
  · intro h
    simp only [recognizedDeviceInfoKeys, List.mem_cons, not_or, List.mem_singleton] at h
    obtain ⟨h1, h2, h3, h4, h5, h6⟩ := h
    simp only [parseDeviceInfoLine]
    split <;> simp_all
  all_goals
    intro h
    simp only [parseDeviceInfoLine, h]
    try simp_all

/-- Witness for C3 at the line `"Flux capacitance: 9"`, whose key is
unrecognized, and (through the theorem's inner implications) at the six
recognized keys. -/
theorem deviceInfoParser_resilient_w :
    (deviceInfoKey "Flux capacitance: 9" ∉ recognizedDeviceInfoKeys →
      parseDeviceInfoLine {} "Flux capacitance: 9" = {}) ∧
    (deviceInfoKey "Flux capacitance: 9" = "Model" →
      (parseDeviceInfoLine {} "Flux capacitance: 9").model = some (deviceInfoValue "Flux capacitance: 9")) ∧
    (deviceInfoKey "Flux capacitance: 9" = "Label" →
      (parseDeviceInfoLine {} "Flux capacitance: 9").name = some (deviceInfoValue "Flux capacitance: 9")) ∧
    (deviceInfoKey "Flux capacitance: 9" = "Unique ID" →
      (parseDeviceInfoLine {} "Flux capacitance: 9").id = some (deviceInfoValue "Flux capacitance: 9")) ∧
    (deviceInfoKey "Flux capacitance: 9" = "Input count" →
      (parseDeviceInfoLine {} "Flux capacitance: 9").buttonsTotal = some (jsToNumber (deviceInfoValue "Flux capacitance: 9"))) ∧
    (deviceInfoKey "Flux capacitance: 9" = "Inputs across" →
      (parseDeviceInfoLine {} "Flux capacitance: 9").buttonsColumns = some (jsToNumber (deviceInfoValue "Flux capacitance: 9"))) ∧
    (deviceInfoKey "Flux capacitance: 9" = "Inputs down" →
      (parseDeviceInfoLine {} "Flux capacitance: 9").buttonsRows = some (jsToNumber (deviceInfoValue "Flux capacitance: 9"))) ∧
    (deviceInfoKey "Flux capacitance: 9" = "Input count" →
      jsToNumber (deviceInfoValue "Flux capacitance: 9") = none →
      (parseDeviceInfoLine {} "Flux capacitance: 9").buttonsTotal = some none ∧
      (parseDeviceInfoLine {} "Flux capacitance: 9").buttonsTotal ≠ none) :=
  deviceInfoParser_resilient {} "Flux capacitance: 9"

/-- C3 counterexample: for the block line `"Input count: abc"`, whose
value does not parse as a number, the claim says `buttonsTotal` is left
absent from the descriptor; the code stores `Number("abc")`, i.e. `NaN` —
the field is present (as `NaN`), not absent. -/
theorem deviceInfoParser_nan_is_present :
    jsToNumber "abc" = none ∧
    (parseDeviceInfo ["SMART DEVICE:", "Input count: abc"]).buttonsTotal = some none ∧
    (parseDeviceInfo ["SMART DEVICE:", "Input count: abc"]).buttonsTotal ≠ none := by
  refine ⟨by decide, by decide, by decide⟩

/-! ## Handshake success continuation (`videohub.ts` lines 142–160)

On handshake success `#clientConnect` runs
`publicClientId = processedInfo.id || publicClientId` (line 145) — the
mutable `publicClientId` binding was initialised to `remoteAddress` at
line 87 and is not written anywhere else before this point. The `connect`
event (line 159) and the `disconnect` event later emitted by `doCleanup`
(line 103) both read this binding after the update. -/

/-- The `connect` event payload `(publicClientId, processedInfo, remoteAddress)`
of videohub.ts line 159, with the descriptor component left to the
surrounding context. -/
structure ConnectEvent where
  publicClientId : String
  remoteAddress : String
  deriving DecidableEq

/-- videohub.ts line 145: the public identity after handshake success —
the panel-reported unique id if truthy, otherwise the previous value of
the binding. -/
def handshakeSuccessPublicId (prevPublicClientId : String) (info : ProcessedInfo) : String :=
  jsOrString info.id prevPublicClientId

/-- The `connect` event emitted at line 159, for a client whose
`publicClientId` binding held `remoteAddress` (its line-87 initial value)
when the handshake succeeded. -/
def connectEventFor (remoteAddress : String) (info : ProcessedInfo) : ConnectEvent :=
  { publicClientId := handshakeSuccessPublicId remoteAddress info
    remoteAddress := remoteAddress }

/-- The identity carried by the `disconnect` event `doCleanup` emits
(line 103) once the client closes after a successful handshake: the
current value of the `publicClientId` binding. -/
def disconnectEventAfterSuccess (remoteAddress : String) (info : ProcessedInfo) : String :=
  handshakeSuccessPublicId remoteAddress info

/-- Preparatory step for C9: a line whose key is not `Unique ID` leaves
the `id` field of the accumulating descriptor unchanged. -/
theorem parseDeviceInfoLine_id_unchanged (info : ProcessedInfo) (element : String)
    (h : deviceInfoKey element ≠ "Unique ID") :
    (parseDeviceInfoLine info element).id = info.id := by
  simp only [parseDeviceInfoLine]
  split <;> simp_all

/-- Preparatory step for C9: folding the parser over lines none of which
carries the `Unique ID` key keeps `id` absent. -/
theorem parse_fold_id_none :
    ∀ (ls : List String) (info : ProcessedInfo),
      info.id = none → (∀ line ∈ ls, deviceInfoKey line ≠ "Unique ID") →
      (ls.foldl parseDeviceInfoLine info).id = none
  | [], _, h, _ => h
  | l :: t, info, h, hall => by
      have hstep := parseDeviceInfoLine_id_unchanged info l (hall l (by simp))
      exact parse_fold_id_none t _ (hstep.trans h) (fun x hx => hall x (by simp [hx]))

/-- C9: when the descriptor lacks a non-empty `Unique ID` (`id` is absent
or the empty string — both falsy in JS), line 145 keeps the previous
public identity, which is the remote address: the `connect` event and any
later `disconnect` event both carry the remote address. Moreover a SMART
DEVICE block with no `Unique ID` line indeed parses to a descriptor with
`id` absent. -/
theorem missing_uniqueId_keeps_remoteAddress (remoteAddress : String) (info : ProcessedInfo)
    (h : info.id = none ∨ info.id = some "") :
    handshakeSuccessPublicId remoteAddress info = remoteAddress ∧
    connectEventFor remoteAddress info =
      { publicClientId := remoteAddress, remoteAddress := remoteAddress } ∧
    disconnectEventAfterSuccess remoteAddress info = remoteAddress ∧
    (∀ block : List String, (∀ line ∈ block.drop 1, deviceInfoKey line ≠ "Unique ID") →
      (parseDeviceInfo block).id = none) := by
  have hid : handshakeSuccessPublicId remoteAddress info = remoteAddress := by
    rcases h with h | h <;>
      simp [handshakeSuccessPublicId, jsOrString, h]
  refine ⟨hid, ?_, hid, ?_⟩
  · simp [connectEventFor, hid]
  · intro block hblock
    exact parse_fold_id_none (block.drop 1) {} rfl hblock

/-- Witness for C9 at `remoteAddress = "10.0.0.9"` and the empty
descriptor (`id` absent). -/
theorem missing_uniqueId_keeps_remoteAddress_w :
    handshakeSuccessPublicId "10.0.0.9" {} = "10.0.0.9" ∧
    connectEventFor "10.0.0.9" {} =
      { publicClientId := "10.0.0.9", remoteAddress := "10.0.0.9" } ∧
    disconnectEventAfterSuccess "10.0.0.9" {} = "10.0.0.9" ∧
    (∀ block : List String, (∀ line ∈ block.drop 1, deviceInfoKey line ≠ "Unique ID") →
      (parseDeviceInfo block).id = none) :=
  missing_uniqueId_keeps_remoteAddress "10.0.0.9" {} (Or.inl rfl)

/-! ## Configure Handshake (`#connectConfigure`, videohub.ts lines 169–270)

The handshake is driven by socket events, modelled as a time-ordered
trace of millisecond-stamped events. The embedding mirrors the async
control flow of the source:

* Lines 190–195 race four `once` listeners — `connect`, `timeout`,
  `close`, `error`; the race resolves at the trace's first non-`data`
  event. The code does **not** inspect which of the four won.
* Lines 180–186 arm a hard timer at `CONFIGURE_TIMEOUT = 5000` ms whose
  callback sets `killed`, calls `socket.destroy()` and then synchronously
  `socket.removeAllListeners()`. Node delivers the `close` event of
  `destroy()` asynchronously, *after* the callback returns, so by then
  every raced listener (and any `data` handler) has been removed: none of
  the raced promises can ever settle once the timer has fired. An event
  stamped at or after 5000 ms therefore resolves nothing.
* Consequently the guard `if (killed) throw new Error('Timeout')`
  (line 197) can only run if the race resolved *before* the timer fired —
  in which case `killed` is false — so the `catch`/`throw` path never
  rejects the promise on deadline expiry: the async function simply stays
  pending forever.
* Lines 203–225 then attach a `data` handler running the same
  one-block-per-event frame logic as the primary connection (`onData`),
  discarding every block whose first line is not `"SMART DEVICE:"`.
  Chunks received before the handler is attached are buffered by the
  paused socket and replayed on attach, so all `data` events of the trace
  are processed in order; the handler, too, dies with the 5000 ms timer,
  so only a block completed strictly before the deadline resolves it. -/

/-- An event on the configure socket, stamped with its time (ms). -/
inductive SockEvent
  | connEstablished
  | idleTimeout
  | closed
  | errored
  | data (chunk : String)
  deriving DecidableEq

/-- The four event kinds raced by lines 190–195 (`data` is not raced). -/
def SockEvent.isRaceEvent : SockEvent → Bool
  | .data _ => false
  | _ => true

/-- videohub.ts line 7. -/
def CONFIGURE_TIMEOUT : Nat := 5000

/-- Final state of the `#connectConfigure` promise: fulfilled with the
parsed device info (line 261), rejected (the `throw` of line 266 — as
argued above, unreachable once the hard timer is in play), or forever
pending. -/
inductive ConfigureOutcome
  | ready (info : ProcessedInfo)
  | failed
  | pending
  deriving DecidableEq

/-- Result of a handshake run: the promise outcome, and whether the
5000 ms timer destroyed the configure socket. -/
structure ConfigureRun where
  outcome : ConfigureOutcome
  configureDestroyed : Bool
  deriving DecidableEq

/-- The data chunks of a trace, in order, with their arrival times. -/
def dataChunks (events : List (Nat × SockEvent)) : List (Nat × String) :=
  events.filterMap (fun e =>
    match e.2 with
    | .data c => some (e.1, c)
    | _ => none)

/-- Lines 203–225: run the per-event frame logic over the data chunks
until a delivery completes a block whose first line is `"SMART DEVICE:"`;
blocks with any other first line are discarded and the handler keeps
waiting. Returns the completion time and the block, if any. -/
def awaitDeviceInfo : String → List (Nat × String) → Option (Nat × List String)
  | _, [] => none
  | dataBuffer, (t, chunk) :: rest =>
      let step := onData dataBuffer chunk
      match step.2 with
      | [toProcess] =>
          if toProcess.head? = some "SMART DEVICE:" then some (t, toProcess)
          else awaitDeviceInfo step.1 rest
      | _ => awaitDeviceInfo step.1 rest

/-- The whole `#connectConfigure` run over a time-ordered trace. The
hard timer wins any tie at exactly 5000 ms. -/
def runConfigure (events : List (Nat × SockEvent)) : ConfigureRun :=
  match events.find? (fun e => e.2.isRaceEvent) with
  | none => { outcome := .pending, configureDestroyed := true }
  | some (tRace, _) =>
      if CONFIGURE_TIMEOUT ≤ tRace then
        { outcome := .pending, configureDestroyed := true }
      else
        match awaitDeviceInfo "" (dataChunks events) with
        | some (tBlock, deviceInfo) =>
            if CONFIGURE_TIMEOUT ≤ tBlock then
              { outcome := .pending, configureDestroyed := true }
            else
              { outcome := .ready (parseDeviceInfo deviceInfo), configureDestroyed := false }
        | none => { outcome := .pending, configureDestroyed := true }

/-- How `#clientConnect` reacts to the handshake promise (lines 141–166):
the `connect` event fires only in the `.then` (promise fulfilled); the
primary socket is destroyed by the handshake only in the `.catch`
(promise rejected). A forever-pending promise triggers neither. -/
structure HandshakeReaction where
  connectEmitted : Bool
  primaryDestroyedByHandshake : Bool
  deriving DecidableEq

def clientConnectReaction (run : ConfigureRun) : HandshakeReaction :=
  match run.outcome with
  | .ready _ => { connectEmitted := true, primaryDestroyedByHandshake := false }
  | .failed => { connectEmitted := false, primaryDestroyedByHandshake := true }
  | .pending => { connectEmitted := false, primaryDestroyedByHandshake := false }

/-- C2: when the configure connection's connect race has not resolved
before the 5000 ms deadline, the timer does destroy the configure socket
and no `connect` event ever fires — but contrary to the claim, the
failure is *not* signalled to the caller (the promise stays pending, the
`throw new Error('Timeout')` being unreachable) and the caller's `.catch`
therefore never destroys the paired primary connection: it is left to
the primary socket's separate 20 s idle timeout. -/
theorem configureTimeout_leaves_primary_alive (events : List (Nat × SockEvent))
    (h : ∀ e ∈ events, e.2.isRaceEvent = true → CONFIGURE_TIMEOUT ≤ e.1) :
    (runConfigure events).configureDestroyed = true ∧
    (runConfigure events).outcome = ConfigureOutcome.pending ∧
    clientConnectReaction (runConfigure events) =
      { connectEmitted := false, primaryDestroyedByHandshake := false } := by
  have key : runConfigure events = { outcome := .pending, configureDestroyed := true } := by
    unfold runConfigure
    split
    · rfl
    · next tRace ev heq =>
        have hp := List.find?_some heq
        have hle : CONFIGURE_TIMEOUT ≤ tRace :=
          h _ (List.mem_of_find?_eq_some heq) hp
        rw [if_pos hle]
  rw [key]
  exact ⟨rfl, rfl, rfl⟩

/-- Witness for C2: a trace whose only event is the connection opening at
6000 ms — after the deadline. -/
theorem configureTimeout_leaves_primary_alive_w :
    (runConfigure [(6000, SockEvent.connEstablished)]).configureDestroyed = true ∧
    (runConfigure [(6000, SockEvent.connEstablished)]).outcome = ConfigureOutcome.pending ∧
    clientConnectReaction (runConfigure [(6000, SockEvent.connEstablished)]) =
      { connectEmitted := false, primaryDestroyedByHandshake := false } :=
  configureTimeout_leaves_primary_alive [(6000, SockEvent.connEstablished)] (by decide)

/-! ## Command Dispatcher (`#handleCommands`, videohub.ts lines 272–300) -/

/-- The `press` event payload of videohub.ts line 289: the identity and
the two numbers `Number` produced for the line. -/
structure PressEvent where
  clientId : String
  destination : JsNum
  value : JsNum
  deriving DecidableEq

/-- One iteration of the routing loop (videohub.ts lines 283–290):
`parts = line.split(' ')`, `destination = Number(parts[0])`,
`value = Number(parts[1])`; a press event is appended iff neither is
`NaN`. (`parts[1]` is `undefined` when the line has a single field, and
`Number(undefined)` is `NaN`.) -/
def routingFold (remoteAddress : String) (acc : List PressEvent) (line : String) : List PressEvent :=
  let parts := jsSplit line ' '
  match jsNumberOfStringOpt parts[0]?, jsNumberOfStringOpt parts[1]? with
  | some d, some v => acc ++ [{ clientId := remoteAddress, destination := d, value := v }]
  | _, _ => acc

/-- The press event (if any) a single routing body line produces. -/
def routingLinePress (remoteAddress line : String) : Option PressEvent :=
  let parts := jsSplit line ' '
  match jsNumberOfStringOpt parts[0]?, jsNumberOfStringOpt parts[1]? with
  | some d, some v => some { clientId := remoteAddress, destination := d, value := v }
  | _, _ => none

/-- Dispatcher `#handleCommands` (videohub.ts lines 272–300): every block is ACKed
unconditionally (line 276); a one-line `PING:` block gets nothing more; a
multi-line block headed `VIDEO OUTPUT ROUTING:` runs the routing loop;
anything else is ignored. Returns (socket writes, press events), in
order. The `displayPress` variable of lines 281–296 feeds only an empty
TODO branch and has no observable effect. -/
def handleCommands (remoteAddress : String) (lines : List String) :
    List String × List PressEvent :=
  let ack := ["ACK\n\n"]
  if lines.length = 1 ∧ lines[0]? = some "PING:" then
    (ack, [])
  else if lines.length > 1 ∧ lines[0]? = some "VIDEO OUTPUT ROUTING:" then
    (ack, (lines.drop 1).foldl (routingFold remoteAddress) [])
  else
    (ack, [])

theorem routingFold_eq (remoteAddress : String) (acc : List PressEvent) (line : String) :
    routingFold remoteAddress acc line =
      acc ++ (routingLinePress remoteAddress line).toList := by
  unfold routingFold routingLinePress
  rcases hd : jsNumberOfStringOpt (jsSplit line ' ')[0]? with _ | d <;>
    rcases hv : jsNumberOfStringOpt (jsSplit line ' ')[1]? with _ | v <;>
      simp [hd, hv]

theorem foldl_routing_eq_filterMap (remoteAddress : String) (ls : List String) :
    ∀ acc, ls.foldl (routingFold remoteAddress) acc =
      acc ++ ls.filterMap (routingLinePress remoteAddress) := by
  induction ls with
  | nil => intro acc; simp
  | cons l t ih =>
      intro acc
      rw [List.foldl_cons, ih, routingFold_eq, List.filterMap_cons]
      cases routingLinePress remoteAddress l <;> simp

/-- C5 (amended): for a block headed `VIDEO OUTPUT ROUTING:` with more
than one line, the dispatcher writes exactly one ACK and emits, for each
subsequent line in order, exactly one press event `(identity,
Number(parts[0]), Number(parts[1]))` **iff the line's first two
space-split fields both parse as numbers under JS `Number(string)`
semantics** (fields beyond the first two are ignored, not rejected);
every line that does not is skipped silently, with no error and no
connection termination (the dispatcher is total and always returns the
ACK). -/
theorem handleCommands_routing (remoteAddress : String) (lines : List String)
    (h1 : lines[0]? = some "VIDEO OUTPUT ROUTING:") (h2 : 1 < lines.length) :
    (handleCommands remoteAddress lines).1 = ["ACK\n\n"] ∧
    (handleCommands remoteAddress lines).2 =
      (lines.drop 1).filterMap (routingLinePress remoteAddress) ∧
    (∀ line, (routingLinePress remoteAddress line).isSome = true ↔
      ((jsNumberOfStringOpt (jsSplit line ' ')[0]?).isSome = true ∧
       (jsNumberOfStringOpt (jsSplit line ' ')[1]?).isSome = true)) := by
  have hno : ¬(lines.length = 1 ∧ lines[0]? = some "PING:") := by
    rintro ⟨hl, -⟩
    omega
  unfold handleCommands
  rw [if_neg hno, if_pos ⟨h2, h1⟩]
  refine ⟨rfl, ?_, ?_⟩
  · rw [foldl_routing_eq_filterMap]
    simp
  · intro line
    unfold routingLinePress
    rcases hd : jsNumberOfStringOpt (jsSplit line ' ')[0]? with _ | d <;>
      rcases hv : jsNumberOfStringOpt (jsSplit line ' ')[1]? with _ | v <;>
        simp [hd, hv]

/-- Witness for C5 at the block `["VIDEO OUTPUT ROUTING:", "3 7"]`. -/
theorem handleCommands_routing_w :
    (handleCommands "10.0.0.5" ["VIDEO OUTPUT ROUTING:", "3 7"]).1 = ["ACK\n\n"] ∧
    (handleCommands "10.0.0.5" ["VIDEO OUTPUT ROUTING:", "3 7"]).2 =
      (["VIDEO OUTPUT ROUTING:", "3 7"].drop 1).filterMap (routingLinePress "10.0.0.5") ∧
    (∀ line, (routingLinePress "10.0.0.5" line).isSome = true ↔
      ((jsNumberOfStringOpt (jsSplit line ' ')[0]?).isSome = true ∧
       (jsNumberOfStringOpt (jsSplit line ' ')[1]?).isSome = true)) :=
  handleCommands_routing "10.0.0.5" ["VIDEO OUTPUT ROUTING:", "3 7"] (by decide) (by decide)

/-- C5 counterexample, refuting the original claim twice over. The line
`"3 7 9"` splits into *three* parts, so by the claim it must be skipped;
the code looks only at `parts[0]` and `parts[1]` and emits
`press ("10.0.0.5", 3, 7)` anyway. And the line `"3 7.5"` splits into
exactly two parts of which `"7.5"` is *not* an integer, so by the claim
("both parse as integers") it must be skipped; `Number("7.5")` is `7.5`,
not `NaN`, and the code emits a press event for it. -/
theorem routing_three_fields_still_emits :
    ((jsSplit "3 7 9" ' ').length = 3 ∧
     (handleCommands "10.0.0.5" ["VIDEO OUTPUT ROUTING:", "3 7 9"]).2 =
       [{ clientId := "10.0.0.5", destination := JsNum.num 3, value := JsNum.num 7 }]) ∧
    ((jsSplit "3 7.5" ' ').length = 2 ∧
     (jsNumberOfString "7.5").isSome = true ∧
     (handleCommands "10.0.0.5" ["VIDEO OUTPUT ROUTING:", "3 7.5"]).2.length = 1) := by
  refine ⟨⟨by decide, by decide⟩, by decide, by decide, by decide⟩

/-! ## Server lifecycle (`VideohubServer.start` / `destroy`,
videohub.ts lines 51–76)

The registry and the sockets are abstracted to their observable flags: a
socket to whether `destroy()` has been called on it, the listening server
to whether `close()` has been called. `destroy` itself does not delete
registry entries; each destroyed primary socket's asynchronous `close`
event runs `doCleanup` (lines 96–104), which removes its entry — the
delivery of those pending events is `deliverCloses`. -/

/-- One `SocketWrapper` entry of the `#clients` registry (lines 9–14, 33). -/
structure ClientEntry where
  internalClientId : String
  clientDestroyed : Bool := false
  configure : Option Bool := none
  deriving DecidableEq

/-- The server's mutable state: `#isRunning`, the listening socket, and
the `#clients` registry. -/
structure ServerState where
  isRunning : Bool := false
  listening : Bool := false
  serverClosed : Bool := false
  clients : List ClientEntry := []
  deriving DecidableEq

/-- Method `start` (lines 51–60): a no-op when already running, otherwise
begins listening. -/
def start (s : ServerState) : ServerState :=
  if s.isRunning then s
  else { s with isRunning := true, listening := true }

/-- Method `destroy` (lines 62–76): a no-op when not running; otherwise closes
the listening server and calls `.destroy()` on every tracked client's
primary socket and (when present) configure socket. -/
def destroy (s : ServerState) : ServerState :=
  if !s.isRunning then s
  else
    { s with
      isRunning := false
      listening := false
      serverClosed := true
      clients := s.clients.map (fun c =>
        { c with
          clientDestroyed := true
          configure := c.configure.map (fun _ => true) }) }

/-- Delivery of the pending `close` events: `doCleanup` (lines 96–104)
deletes the registry entry of every client whose primary socket has been
destroyed. -/
def deliverCloses (s : ServerState) : ServerState :=
  { s with clients := s.clients.filter (fun c => !c.clientDestroyed) }

/-- C4: `start` on a running server is a no-op; `destroy` on a stopped
server is a no-op; `destroy` on a running server closes the listening
socket and force-closes every tracked client's primary and (when
present) configure socket, and — once the resulting `close` events have
run `doCleanup` — the client registry is empty. -/
theorem server_lifecycle (s : ServerState) :
    (s.isRunning = true → start s = s) ∧
    (s.isRunning = false → destroy s = s) ∧
    (s.isRunning = true →
      (destroy s).serverClosed = true ∧
      (∀ c ∈ (destroy s).clients,
        c.clientDestroyed = true ∧ (c.configure = none ∨ c.configure = some true)) ∧
      (deliverCloses (destroy s)).clients = []) := by
  refine ⟨?_, ?_, ?_⟩
  · intro h; simp [start, h]
  · intro h; simp [destroy, h]
  · intro h
    refine ⟨by simp [destroy, h], ?_, ?_⟩
    · intro c hc
      simp only [destroy, h, Bool.not_true, Bool.false_eq_true, if_false, List.mem_map] at hc
      obtain ⟨c0, _, rfl⟩ := hc
      refine ⟨rfl, ?_⟩
      cases c0.configure <;> simp
    · simp only [deliverCloses, destroy, h, Bool.not_true, Bool.false_eq_true, if_false]
      rw [List.filter_eq_nil_iff]
      intro c hc
      simp only [List.mem_map] at hc
      obtain ⟨c0, _, rfl⟩ := hc
      simp

/-- A running server tracking two clients, one with a configure socket. -/
def demoServerState : ServerState :=
  { isRunning := true
    listening := true
    serverClosed := false
    clients :=
      [{ internalClientId := "10.0.0.2:4242", clientDestroyed := false, configure := some false },
       { internalClientId := "10.0.0.3:5151", clientDestroyed := false, configure := none }] }

/-- Witness for C4 at `demoServerState`. -/
theorem server_lifecycle_w :
    (demoServerState.isRunning = true → start demoServerState = demoServerState) ∧
    (demoServerState.isRunning = false → destroy demoServerState = demoServerState) ∧
    (demoServerState.isRunning = true →
      (destroy demoServerState).serverClosed = true ∧
      (∀ c ∈ (destroy demoServerState).clients,
        c.clientDestroyed = true ∧ (c.configure = none ∨ c.configure = some true)) ∧
      (deliverCloses (destroy demoServerState)).clients = []) :=
  server_lifecycle demoServerState

/-! ## Registry commands (`setBacklight` / `configureDevice`,
videohub.ts lines 305–351)

Both commands validate their numeric argument (after `Math.floor`, here
`Int.floor` on a rational — JS numbers that reach these paths are finite;
`NaN` would be rejected by the explicit `isNaN` guard just as any
out-of-range value, so it is subsumed by the error case), then look the
client up by remote address or public id, then require a configure
connection, and only then write; a thrown error (`Except.error`) writes
nothing to any socket, since the single write is the last statement. -/

/-- The registry entry fields these commands consult. `remoteAddress` is
`socket.remoteAddress`, which is `undefined` (`none`) once a socket is
disconnected; `buttonsColumns`/`buttonsRows` are the stored device-info
counts (the claims exercise clients whose counts parsed as integers). -/
structure RegClient where
  remoteAddress : Option String
  publicClientId : String
  configure : Bool
  buttonsColumns : Nat
  buttonsRows : Nat
  deriving DecidableEq

/-- The lookup shared by both commands (lines 311–313 and 341–343):
`Object.values(this.#clients).find(cl => cl.client.remoteAddress ===
publicClientId || cl.publicClientId === publicClientId)`. -/
def findClient (clients : List RegClient) (publicClientId : String) : Option RegClient :=
  clients.find? (fun cl =>
    cl.remoteAddress == some publicClientId || cl.publicClientId == publicClientId)

/-- The SETTINGS block written at lines 318–321. -/
def settingsPayload (backlight : Int) : String :=
  "SETTINGS:\n" ++
  ("Backlight: " ++ toString backlight ++ "\n") ++
  ("Destination backlight: " ++ toString backlight ++ "\n") ++
  "\n"

/-- Command `VideohubServer.setBacklight` (lines 305–324): floor, validate
`0 ≤ ⌊level⌋ ≤ 10`, look up the client, require a truthy remote address
and a configure connection, then write the SETTINGS block. -/
def setBacklight (clients : List RegClient) (publicClientId : String) (backlight : ℚ) :
    Except String String :=
  let backlightI : Int := ⌊backlight⌋
  if backlightI < 0 ∨ 10 < backlightI then
    Except.error ("Invalid backlight value: " ++ toString backlightI)
  else
    match findClient clients publicClientId with
    | none => Except.error ("Unknown client: " ++ publicClientId)
    | some client =>
        if !jsTruthyStr client.remoteAddress then
          Except.error ("Unknown client: " ++ publicClientId)
        else if !client.configure then
          Except.error ("Unavailable for configuration: " ++ publicClientId)
        else
          Except.ok (settingsPayload backlightI)

/-- Command `VideohubServer.configureDevice` (lines 329–351): floor, validate
non-negative, at most 8 and even, look up the client as above, then
write a fresh configure block from the stored column/row counts and the
floored destination count. -/
def configureDevice (clients : List RegClient) (publicClientId : String)
    (destinationCount : ℚ) : Except String String :=
  let destinationCountI : Int := ⌊destinationCount⌋
  if destinationCountI < 0 ∨ 8 < destinationCountI ∨ destinationCountI % 2 ≠ 0 then
    Except.error ("Invalid destination count: " ++ toString destinationCountI)
  else
    match findClient clients publicClientId with
    | none => Except.error ("Unknown client: " ++ publicClientId)
    | some client =>
        if !jsTruthyStr client.remoteAddress then
          Except.error ("Unknown client: " ++ publicClientId)
        else if !client.configure then
          Except.error ("Unavailable for configuration: " ++ publicClientId)
        else
          Except.ok (generateConfigure client.buttonsColumns client.buttonsRows
            destinationCountI.toNat)

/-- C6: `setBacklight` floors its level and succeeds (writing the
SETTINGS block, and only then) exactly when `0 ≤ ⌊level⌋ ≤ 10` and the
public identity finds a client that has a configure connection; in every
other case it returns a synchronous error and writes nothing. The
hypothesis — every registered client has a truthy remote address — is
established at registration (lines 79–84 reject sockets without one). -/
theorem setBacklight_spec (clients : List RegClient) (publicClientId : String) (level : ℚ)
    (hreg : ∀ c ∈ clients, jsTruthyStr c.remoteAddress = true) :
    ((∃ w, setBacklight clients publicClientId level = Except.ok w) ↔
      (0 ≤ ⌊level⌋ ∧ ⌊level⌋ ≤ 10 ∧
        ∃ cl, findClient clients publicClientId = some cl ∧ cl.configure = true)) ∧
    (∀ cl, findClient clients publicClientId = some cl → cl.configure = true →
      0 ≤ ⌊level⌋ → ⌊level⌋ ≤ 10 →
      setBacklight clients publicClientId level = Except.ok (settingsPayload ⌊level⌋)) ∧
    (¬(0 ≤ ⌊level⌋ ∧ ⌊level⌋ ≤ 10) →
      ∃ msg, setBacklight clients publicClientId level = Except.error msg) := by
  have hfind : ∀ cl, findClient clients publicClientId = some cl →
      jsTruthyStr cl.remoteAddress = true :=
    fun cl h => hreg cl (List.mem_of_find?_eq_some h)
  unfold setBacklight
  by_cases hrange : ⌊level⌋ < 0 ∨ 10 < ⌊level⌋
  · rw [if_pos hrange]
    refine ⟨?_, ?_, ?_⟩
    · constructor
      · rintro ⟨w, hw⟩
        exact absurd hw (by simp)
      · rintro ⟨h0, h10, -⟩
        omega
    · intro cl _ _ h0 h10
      omega
    · intro _
      exact ⟨_, rfl⟩
  · rw [if_neg hrange]
    have h0 : 0 ≤ ⌊level⌋ := by omega
    have h10 : ⌊level⌋ ≤ 10 := by omega
    rcases hcl : findClient clients publicClientId with _ | cl
    · refine ⟨?_, ?_, ?_⟩
      · simp
      · intro cl hcl'
        simp at hcl'
      · intro h
        exact absurd ⟨h0, h10⟩ h
    · have htruthy := hfind cl hcl
      simp only [htruthy, Bool.not_true, Bool.false_eq_true, if_false]
      by_cases hcfg : cl.configure
      · simp only [hcfg, Bool.not_true, Bool.false_eq_true, if_false]
        refine ⟨?_, ?_, ?_⟩
        · constructor
          · intro _
            exact ⟨h0, h10, cl, rfl, hcfg⟩
          · intro _
            exact ⟨_, rfl⟩
        · intro cl' hcl' _ _ _
          simp_all
        · intro h
          exact absurd ⟨h0, h10⟩ h
      · simp only [Bool.not_eq_true] at hcfg
        simp only [hcfg, Bool.not_false, if_true]
        refine ⟨?_, ?_, ?_⟩
        · constructor
          · rintro ⟨w, hw⟩
            exact absurd hw (by simp)
          · rintro ⟨-, -, cl', hcl', hcfg'⟩
            cases hcl'
            simp_all
        · intro cl' hcl' hcfg' _ _
          cases hcl'
          simp_all
        · intro h
          exact absurd ⟨h0, h10⟩ h

/-- A registry with one fully configured client. -/
def demoRegistry : List RegClient :=
  [{ remoteAddress := some "10.1.1.7", publicClientId := "panel-7", configure := true,
     buttonsColumns := 12, buttonsRows := 2 }]

/-- Witness for C6 at the boundary level 10 against `demoRegistry`. -/
theorem setBacklight_spec_w :
    ((∃ w, setBacklight demoRegistry "panel-7" 10 = Except.ok w) ↔
      (0 ≤ ⌊(10 : ℚ)⌋ ∧ ⌊(10 : ℚ)⌋ ≤ 10 ∧
        ∃ cl, findClient demoRegistry "panel-7" = some cl ∧ cl.configure = true)) ∧
    (∀ cl, findClient demoRegistry "panel-7" = some cl → cl.configure = true →
      0 ≤ ⌊(10 : ℚ)⌋ → ⌊(10 : ℚ)⌋ ≤ 10 →
      setBacklight demoRegistry "panel-7" 10 = Except.ok (settingsPayload ⌊(10 : ℚ)⌋)) ∧
    (¬(0 ≤ ⌊(10 : ℚ)⌋ ∧ ⌊(10 : ℚ)⌋ ≤ 10) →
      ∃ msg, setBacklight demoRegistry "panel-7" 10 = Except.error msg) :=
  setBacklight_spec demoRegistry "panel-7" 10 (by decide)

/-- C7 (amended): `configureDevice` floors its destination count first,
then validates: it succeeds — writing `generateConfigure(storedColumns,
storedRows, ⌊count⌋)` — exactly when `⌊count⌋` is non-negative, at most
8 and even and the public identity finds a client with a configure
connection; in every other case it returns a synchronous error without
writing. In particular it accepts floored counts 0, 2, 4, 6, 8, and
because the floor happens *before* the range check, it also accepts
non-integer counts above 8 whose floor is 8 (e.g. 8.5), which the
original claim says it must reject. -/
theorem configureDevice_spec (clients : List RegClient) (publicClientId : String)
    (count : ℚ) (hreg : ∀ c ∈ clients, jsTruthyStr c.remoteAddress = true) :
    ((∃ w, configureDevice clients publicClientId count = Except.ok w) ↔
      (0 ≤ ⌊count⌋ ∧ ⌊count⌋ ≤ 8 ∧ ⌊count⌋ % 2 = 0 ∧
        ∃ cl, findClient clients publicClientId = some cl ∧ cl.configure = true)) ∧
    (∀ cl, findClient clients publicClientId = some cl → cl.configure = true →
      0 ≤ ⌊count⌋ → ⌊count⌋ ≤ 8 → ⌊count⌋ % 2 = 0 →
      configureDevice clients publicClientId count =
        Except.ok (generateConfigure cl.buttonsColumns cl.buttonsRows (⌊count⌋).toNat)) ∧
    (¬(0 ≤ ⌊count⌋ ∧ ⌊count⌋ ≤ 8 ∧ ⌊count⌋ % 2 = 0) →
      ∃ msg, configureDevice clients publicClientId count = Except.error msg) := by
  have hfind : ∀ cl, findClient clients publicClientId = some cl →
      jsTruthyStr cl.remoteAddress = true :=
    fun cl h => hreg cl (List.mem_of_find?_eq_some h)
  unfold configureDevice
  by_cases hrange : ⌊count⌋ < 0 ∨ 8 < ⌊count⌋ ∨ ⌊count⌋ % 2 ≠ 0
  · rw [if_pos hrange]
    refine ⟨?_, ?_, ?_⟩
    · constructor
      · rintro ⟨w, hw⟩
        exact absurd hw (by simp)
      · rintro ⟨h0, h8, h2, -⟩
        rcases hrange with h | h | h <;> omega
    · intro cl _ _ h0 h8 h2
      rcases hrange with h | h | h <;> omega
    · intro _
      exact ⟨_, rfl⟩
  · rw [if_neg hrange]
    push_neg at hrange
    obtain ⟨h0, h8, h2⟩ : 0 ≤ ⌊count⌋ ∧ ⌊count⌋ ≤ 8 ∧ ⌊count⌋ % 2 = 0 := by
      refine ⟨by omega, by omega, ?_⟩
      rcases hrange with ⟨-, -, h⟩
      simpa using h
    rcases hcl : findClient clients publicClientId with _ | cl
    · refine ⟨?_, ?_, ?_⟩
      · simp
      · intro cl hcl'
        simp at hcl'
      · intro h
        exact absurd ⟨h0, h8, h2⟩ h
    · have htruthy := hfind cl hcl
      simp only [htruthy, Bool.not_true, Bool.false_eq_true, if_false]
      by_cases hcfg : cl.configure
      · simp only [hcfg, Bool.not_true, Bool.false_eq_true, if_false]
        refine ⟨?_, ?_, ?_⟩
        · constructor
          · intro _
            exact ⟨h0, h8, h2, cl, rfl, hcfg⟩
          · intro _
            exact ⟨_, rfl⟩
        · intro cl' hcl' _ _ _ _
          cases hcl'
          rfl
        · intro h
          exact absurd ⟨h0, h8, h2⟩ h
      · simp only [Bool.not_eq_true] at hcfg
        simp only [hcfg, Bool.not_false, if_true]
        refine ⟨?_, ?_, ?_⟩
        · constructor
          · rintro ⟨w, hw⟩
            exact absurd hw (by simp)
          · rintro ⟨-, -, -, cl', hcl', hcfg'⟩
            cases hcl'
            simp_all
        · intro cl' hcl' hcfg' _ _ _
          cases hcl'
          simp_all
        · intro h
          exact absurd ⟨h0, h8, h2⟩ h

/-- Witness for C7 at count 4 against `demoRegistry`. -/
theorem configureDevice_spec_w :
    ((∃ w, configureDevice demoRegistry "panel-7" 4 = Except.ok w) ↔
      (0 ≤ ⌊(4 : ℚ)⌋ ∧ ⌊(4 : ℚ)⌋ ≤ 8 ∧ ⌊(4 : ℚ)⌋ % 2 = 0 ∧
        ∃ cl, findClient demoRegistry "panel-7" = some cl ∧ cl.configure = true)) ∧
    (∀ cl, findClient demoRegistry "panel-7" = some cl → cl.configure = true →
      0 ≤ ⌊(4 : ℚ)⌋ → ⌊(4 : ℚ)⌋ ≤ 8 → ⌊(4 : ℚ)⌋ % 2 = 0 →
      configureDevice demoRegistry "panel-7" 4 =
        Except.ok (generateConfigure cl.buttonsColumns cl.buttonsRows (⌊(4 : ℚ)⌋).toNat)) ∧
    (¬(0 ≤ ⌊(4 : ℚ)⌋ ∧ ⌊(4 : ℚ)⌋ ≤ 8 ∧ ⌊(4 : ℚ)⌋ % 2 = 0) →
      ∃ msg, configureDevice demoRegistry "panel-7" 4 = Except.error msg) :=
  configureDevice_spec demoRegistry "panel-7" 4 (by decide)

/-- C7 counterexample: the destination count `17/2 = 8.5` is greater
than 8, so by the claim `configureDevice` must throw; the code floors
first (`Math.floor(8.5) = 8` passes every check) and happily writes the
configure block for 8 destinations. -/
theorem configureDevice_accepts_eight_point_five :
    (8 : ℚ) < 17/2 ∧
    configureDevice demoRegistry "panel-7" (17/2) =
      Except.ok (generateConfigure 12 2 8) := by
  have hfloor : ⌊(17/2 : ℚ)⌋ = 8 := by norm_num
  refine ⟨by norm_num, ?_⟩
  unfold configureDevice
  simp only [hfloor]
  rfl
